import Mathlib

/-!
Verification of the CSI snapshot webhook controller
(`pkg/operator/webhookdeployment/webhook.go`) by a shallow embedding of its
reconciliation logic.  External collaborators (the operator client, the node
lister, the resource applier, the status writer and the static template
assets) are supplied through an explicit environment record, and `sync`
returns the trace of remote calls it performed together with its error
result, so that frame and error-propagation properties become statements
about that trace.
-/

namespace WebhookCtl

/-- `operatorapi.ManagementState` (external `openshift/api` enum referenced by
the source): "Managed", "Unmanaged", "Force", "Removed". -/
inductive ManagementState
  | Managed
  | Unmanaged
  | Force
  | Removed
deriving DecidableEq, Repr

/-- `operatorapi.OperatorSpec` restricted to the fields `sync` reads:
`ManagementState` and `LogLevel` (a string type in the source). -/
structure OperatorSpec where
  managementState : ManagementState
  logLevel : String
deriving DecidableEq, Repr

/-- One entry of `operatorapi.OperatorStatus.Generations`
(`operatorapi.GenerationStatus`): the last-applied generation recorded per
managed object identity. -/
structure GenerationStatus where
  group : String
  resource : String
  nspace : String
  name : String
  lastGeneration : Int
deriving DecidableEq, Repr

/-- `operatorapi.OperatorStatus` restricted to the field `sync` reads:
the generation records. -/
structure OperatorStatus where
  generations : List GenerationStatus
deriving DecidableEq, Repr

/-- A cluster node as seen through the node lister: only its labels matter
to this controller. -/
structure Node where
  labels : List (String × String)
deriving DecidableEq, Repr

/-- `appsv1.DeploymentStatus` restricted to the fields read when computing
conditions: `ObservedGeneration`, `AvailableReplicas`, `UpdatedReplicas`
(Go `int64`/`int32`, embedded as `Int`). -/
structure DeploymentStatus where
  observedGeneration : Int
  availableReplicas : Int
  updatedReplicas : Int
deriving DecidableEq, Repr

/-- `appsv1.Deployment` restricted to the fields this controller touches:
identity, `Generation`, `Spec.Replicas` (a nullable pointer, hence
`Option Int`), `Spec.Template.Spec.NodeSelector` and the status block. -/
structure Deployment where
  name : String
  nspace : String
  generation : Int
  specReplicas : Option Int
  nodeSelector : List (String × String)
  status : DeploymentStatus
deriving DecidableEq, Repr

/-- A content digest over a webhook rule set.  The source stamps a SHA-256
hash of the serialized `Webhooks` slice; the model keeps the serialized
content itself as the digest, an injective stand-in for the hash, which is
exactly the property the annotation exists to provide (template changes are
detectable as a changed annotation value). -/
structure SpecDigest where
  content : List String
deriving DecidableEq, Repr

/-- `admissionv1.ValidatingWebhookConfiguration` restricted to the fields
this controller touches: name, the `Webhooks` rule set (abstracted to its
serialized entries), metadata annotations and `Generation`. -/
structure WebhookConfig where
  name : String
  webhooks : List String
  annotations : List (String × SpecDigest)
  generation : Int
deriving DecidableEq, Repr

/-- `operatorapi.OperatorCondition`: Go zero values are empty strings, so an
unset status/reason/message is the empty string, matching the source's
partially-initialized condition structs. -/
structure OperatorCondition where
  type : String
  status : String := ""
  reason : String := ""
  message : String := ""
deriving DecidableEq, Repr

/-- Constant `WebhookControllerName` from the source. -/
def WebhookControllerName : String := "CSISnapshotWebhookController"

/-- `operatorapi.OperatorStatusTypeAvailable` (external constant "Available"). -/
def OperatorStatusTypeAvailable : String := "Available"

/-- `operatorapi.OperatorStatusTypeProgressing` (external constant "Progressing"). -/
def OperatorStatusTypeProgressing : String := "Progressing"

/-- `operatorapi.ConditionTrue` (external constant "True"). -/
def ConditionTrue : String := "True"

/-- `operatorapi.ConditionFalse` (external constant "False"). -/
def ConditionFalse : String := "False"

/-- Modelled from the spec: `loglevel.ValidLogLevel` from the external
`library-go` dependency recognizes exactly Normal, Debug, Trace, TraceAll
and the empty (unset) level. -/
def ValidLogLevel (logLevel : String) : Bool :=
  logLevel = "Normal" || logLevel = "Debug" || logLevel = "Trace" ||
    logLevel = "TraceAll" || logLevel = ""

/-- Modelled from the spec: `loglevel.LogLevelToVerbosity` from the external
`library-go` dependency maps the recognized levels to integer verbosities
(Normal/unset: 2, Debug: 4, Trace: 6, TraceAll: 8, default 2). -/
def LogLevelToVerbosity (logLevel : String) : Nat :=
  if logLevel = "Normal" then 2
  else if logLevel = "Debug" then 4
  else if logLevel = "Trace" then 6
  else if logLevel = "TraceAll" then 8
  else 2

/-- The replica sizing in `sync` (lines 116-123): start from 1 and raise to
2 when the node lister returned more than one qualifying node. -/
def replicaCount (nodes : List Node) : Int :=
  if nodes.length > 1 then 2 else 1

/-- The Available condition computed in `sync` (lines 142-153) from the live
deployment returned by the apply. -/
def computeAvailable (deployment : Deployment) : OperatorCondition :=
  if deployment.status.availableReplicas > 0 then
    { type := WebhookControllerName ++ OperatorStatusTypeAvailable
      status := ConditionTrue }
  else
    { type := WebhookControllerName ++ OperatorStatusTypeAvailable
      status := ConditionFalse
      reason := "Deploying"
      message := "Waiting for a validating webhook Deployment pod to start" }

/-- The Progressing condition computed in `sync` (lines 155-175) from the
live deployment returned by the apply: generation skew first, then replica
convergence, and nothing at all (fields left at their zero values) when
`Spec.Replicas` is nil. -/
def computeProgressing (deployment : Deployment) : OperatorCondition :=
  if deployment.status.observedGeneration ≠ deployment.generation then
    { type := WebhookControllerName ++ OperatorStatusTypeProgressing
      status := ConditionTrue
      reason := "Deploying"
      message := "desired generation " ++ toString deployment.generation ++ ", current generation " ++ toString deployment.status.observedGeneration }
  else
    match deployment.specReplicas with
    | some desired =>
      if deployment.status.updatedReplicas = desired then
        { type := WebhookControllerName ++ OperatorStatusTypeProgressing
          status := ConditionFalse }
      else
        { type := WebhookControllerName ++ OperatorStatusTypeProgressing
          status := ConditionTrue
          reason := "Deploying"
          message := toString deployment.status.updatedReplicas ++ " out of " ++ toString desired ++ " pods running" }
    | none =>
      { type := WebhookControllerName ++ OperatorStatusTypeProgressing }

/-- Character-list worker for `replaceAll`: scan left to right, and at each
position either consume a full occurrence of the pattern (emitting the
replacement) or keep one character.  The fuel argument only bounds the
recursion; `replaceAll` supplies the input length, which is always enough
because each step consumes at least one character of the input. -/
def replaceGo : Nat → List Char → List Char → List Char → List Char
  | 0, s, _, _ => s
  | _, [], _, _ => []
  | fuel + 1, c :: rest, pat, rep =>
    if pat.isPrefixOf (c :: rest) then
      rep ++ replaceGo fuel ((c :: rest).drop pat.length) pat rep
    else
      c :: replaceGo fuel rest pat rep

/-- `strings.ReplaceAll` from Go's standard library, as used by
`getDeployment`: replace every non-overlapping occurrence of `pat` in `s`
with `rep`, scanning left to right.  The two patterns substituted by this
controller are non-empty literals, so the empty-pattern case never arises;
it is mapped to the identity. -/
def replaceAll (s pat rep : String) : String :=
  if pat.data.isEmpty then s
  else ⟨replaceGo s.data.length s.data pat.data rep.data⟩

/-- The `${WEBHOOK_IMAGE}` placeholder replaced in `getDeployment`. -/
def imagePlaceholder : String := "$\x7bWEBHOOK_IMAGE\x7d"

/-- The `${LOG_LEVEL}` placeholder replaced in `getDeployment`. -/
def logLevelPlaceholder : String := "$\x7bLOG_LEVEL\x7d"

/-- `getDeployment` (lines 191-206): substitute the configured image for
every `${WEBHOOK_IMAGE}` occurrence of the static template, reject an
invalid log level with an error (the source formats the level with `%q`,
hence the quotes), substitute the mapped verbosity for every `${LOG_LEVEL}`
occurrence, and decode.  The template asset and the decoder
(`ReadDeploymentV1OrDie`, whose failure is a panic on a static asset, not a
returned error) live outside the source file and are passed in. -/
def getDeployment (decode : String → Deployment) (asset : String)
    (image : String) (logLevel : String) : Except String Deployment :=
  let withImage := replaceAll asset imagePlaceholder image
  if ValidLogLevel logLevel then
    let rendered :=
      replaceAll withImage logLevelPlaceholder (toString (LogLevelToVerbosity logLevel))
    Except.ok (decode rendered)
  else
    Except.error ("logLevel \"" ++ logLevel ++ "\" is not a valid log level")

/-- The annotation key used by `resourceapply.SetSpecHashAnnotation`
(external constant "operator.openshift.io/spec-hash"). -/
def specHashKey : String := "operator.openshift.io/spec-hash"

/-- Modelled from the spec: `resourceapply.SetSpecHashAnnotation` from the
external `library-go` dependency stamps a content hash of the given spec
(here the `Webhooks` slice) on the object's metadata under `specHashKey`,
replacing any previous value; the hash is modelled by the injective
`SpecDigest` so that distinct rule sets yield distinct annotation values. -/
def setSpecHash (annos : List (String × SpecDigest)) (digest : SpecDigest) :
    List (String × SpecDigest) :=
  (specHashKey, digest) :: annos.filter (fun kv => kv.1 ≠ specHashKey)

/-- `getWebhookConfig` (lines 208-219): decode the static admission-hook
template (no placeholder substitution; the decode result of the asset is
passed in since the asset lives outside the source file) and stamp the
content hash of its `Webhooks` rule set as an annotation. -/
def getWebhookConfig (decoded : Except String WebhookConfig) :
    Except String WebhookConfig :=
  match decoded with
  | Except.error e => Except.error e
  | Except.ok webhook =>
    Except.ok { webhook with
      annotations := setSpecHash webhook.annotations ⟨webhook.webhooks⟩ }

/-- Modelled from the spec: `resourcemerge.GenerationFor` from the external
`library-go` dependency looks up the generation record for one object
identity. -/
def generationFor (gens : List GenerationStatus)
    (group resource nspace name : String) : Option GenerationStatus :=
  gens.find? (fun g =>
    g.group = group && g.resource = resource && g.nspace = nspace && g.name = name)

/-- Modelled from the spec: `resourcemerge.ExpectedDeploymentGeneration`
returns the recorded last generation for the deployment, or -1 when none is
recorded. -/
def expectedDeploymentGeneration (deployment : Deployment)
    (gens : List GenerationStatus) : Int :=
  match generationFor gens "apps" "deployments" deployment.nspace deployment.name with
  | some g => g.lastGeneration
  | none => -1

/-- Modelled from the spec:
`resourcemerge.ExpectedValidatingWebhooksConfiguration` returns the recorded
last generation for the named webhook configuration, or -1 when none is
recorded. -/
def expectedWebhookGeneration (name : String)
    (gens : List GenerationStatus) : Int :=
  match generationFor gens "admissionregistration.k8s.io"
      "validatingwebhookconfigurations" "" name with
  | some g => g.lastGeneration
  | none => -1

/-- Decidable equality for fallible results, used to evaluate the
development on closed inputs. -/
instance {ε α : Type} [DecidableEq ε] [DecidableEq α] :
    DecidableEq (Except ε α) := fun a b =>
  match a, b with
  | Except.error x, Except.error y =>
    if h : x = y then isTrue (by rw [h])
    else isFalse (fun hc => h (by cases hc; rfl))
  | Except.error _, Except.ok _ => isFalse (fun hc => Except.noConfusion hc)
  | Except.ok _, Except.error _ => isFalse (fun hc => Except.noConfusion hc)
  | Except.ok x, Except.ok y =>
    if h : x = y then isTrue (by rw [h])
    else isFalse (fun hc => h (by cases hc; rfl))

/-- Errors surfaced by the external collaborators.  `notFound` is the case
`apierrors.IsNotFound` recognizes on the operator-state read. -/
inductive ApiError
  | notFound
  | other (msg : String)
deriving DecidableEq, Repr

/-- One remote call performed by a `sync` pass, recorded in order: the two
applies, the single status write (carrying the conditions and the generation
values the update function records), and an enqueue to the controller's
rate-limiting work queue (present in the effect vocabulary so its absence is
provable). -/
inductive SyncEffect
  | applyDeployment (desired : Deployment) (lastGeneration : Int)
  | applyWebhook (desired : WebhookConfig) (lastGeneration : Int)
  | updateStatus (available progressing : OperatorCondition)
      (deploymentGeneration webhookGeneration : Int)
  | enqueue (item : String)
deriving DecidableEq, Repr

/-- The controller struct: the fields `sync` reads (`csiSnapshotWebhookImage`)
plus the rate-limiting work queue, modelled by its list of pending items. -/
structure Controller where
  csiSnapshotWebhookImage : String
  queue : List String
deriving DecidableEq, Repr

/-- `NewCSISnapshotWebhookController` (lines 66-89): constructs the
controller with the given image and a freshly created (empty) work queue. -/
def newCSISnapshotWebhookController (image : String) : Controller :=
  { csiSnapshotWebhookImage := image, queue := [] }

/-- The external collaborators of one `sync` pass: the operator-state read,
the static assets and decoders, the node lister, the two appliers and the
status writer, each giving the outcome the remote side would produce. -/
structure SyncEnv where
  getOperatorState : Except ApiError (OperatorSpec × OperatorStatus)
  deploymentAsset : String
  decodeDeployment : String → Deployment
  listNodes : List (String × String) → Except ApiError (List Node)
  applyDeployment : Deployment → Int → Except ApiError Deployment
  webhookTemplate : Except String WebhookConfig
  applyWebhook : WebhookConfig → Int → Except ApiError WebhookConfig
  updateStatusResult : Except ApiError Unit

/-- The outcome of a `sync` pass: the ordered trace of remote calls made and
the error returned. -/
structure SyncResult where
  effects : List SyncEffect
  error : Option ApiError
deriving DecidableEq, Repr

/-- `sync` (lines 90-189): read the operator state (not-found and unmanaged
are quiet no-ops), render the deployment, size its replicas from the node
lister's qualifying-node list, apply it, render and apply the webhook
configuration, then compute the two conditions from the live deployment and
persist them together with the generation records in a single status write.
Every failure aborts the rest of the pass and is returned. -/
def sync (c : Controller) (env : SyncEnv) : SyncResult :=
  match env.getOperatorState with
  | Except.error e =>
    if e = ApiError.notFound then ⟨[], none⟩ else ⟨[], some e⟩
  | Except.ok (opSpec, opStatus) =>
    if opSpec.managementState = ManagementState.Managed then
      match getDeployment env.decodeDeployment env.deploymentAsset
          c.csiSnapshotWebhookImage opSpec.logLevel with
      | Except.error e => ⟨[], some (ApiError.other e)⟩
      | Except.ok rendered =>
        match env.listNodes rendered.nodeSelector with
        | Except.error e => ⟨[], some e⟩
        | Except.ok nodes =>
          let desired := { rendered with specReplicas := some (replicaCount nodes) }
          let lastGeneration := expectedDeploymentGeneration desired opStatus.generations
          match env.applyDeployment desired lastGeneration with
          | Except.error e =>
            ⟨[SyncEffect.applyDeployment desired lastGeneration], some e⟩
          | Except.ok liveDeployment =>
            match getWebhookConfig env.webhookTemplate with
            | Except.error e =>
              ⟨[SyncEffect.applyDeployment desired lastGeneration],
               some (ApiError.other e)⟩
            | Except.ok webhookConfig =>
              let lastWebhookGeneration :=
                expectedWebhookGeneration webhookConfig.name opStatus.generations
              match env.applyWebhook webhookConfig lastWebhookGeneration with
              | Except.error e =>
                ⟨[SyncEffect.applyDeployment desired lastGeneration,
                  SyncEffect.applyWebhook webhookConfig lastWebhookGeneration],
                 some e⟩
              | Except.ok liveWebhook =>
                ⟨[SyncEffect.applyDeployment desired lastGeneration,
                  SyncEffect.applyWebhook webhookConfig lastWebhookGeneration,
                  SyncEffect.updateStatus (computeAvailable liveDeployment)
                    (computeProgressing liveDeployment)
                    liveDeployment.generation liveWebhook.generation],
                 match env.updateStatusResult with
                 | Except.ok _ => none
                 | Except.error e => some e⟩
    else ⟨[], none⟩

/-! Concrete fixtures used to evaluate the development on closed inputs. -/

/-- A concrete decoded deployment template. -/
def sampleDeployment : Deployment :=
  { name := "csi-snapshot-webhook"
    nspace := "openshift-cluster-storage-operator"
    generation := 3
    specReplicas := none
    nodeSelector := [("node-role.kubernetes.io/master", "")]
    status := { observedGeneration := 3, availableReplicas := 1, updatedReplicas := 2 } }

/-- A concrete decoded admission-hook template. -/
def sampleWebhookTemplate : WebhookConfig :=
  { name := "snapshot.storage.k8s.io"
    webhooks := ["rule-v1"]
    annotations := []
    generation := 7 }

/-- A decoder fixture that records the rendered text it was given. -/
def sampleDecode : String → Deployment :=
  fun s => { sampleDeployment with name := s }

/-- An environment fixture in which every collaborator succeeds and the node
lister returns two qualifying nodes. -/
def sampleEnv : SyncEnv :=
  { getOperatorState :=
      Except.ok ({ managementState := ManagementState.Managed, logLevel := "Normal" }, ⟨[]⟩)
    deploymentAsset := "image: $\x7bWEBHOOK_IMAGE\x7d args: v=$\x7bLOG_LEVEL\x7d"
    decodeDeployment := fun _ => sampleDeployment
    listNodes := fun _ => Except.ok [⟨[("a", "1")]⟩, ⟨[("b", "2")]⟩]
    applyDeployment := fun d _ => Except.ok d
    webhookTemplate := Except.ok sampleWebhookTemplate
    applyWebhook := fun w _ => Except.ok w
    updateStatusResult := Except.ok () }

/-- The environment fixture with a missing operator configuration. -/
def sampleEnvAbsent : SyncEnv :=
  { sampleEnv with getOperatorState := Except.error ApiError.notFound }

/-- The environment fixture with an unmanaged operator configuration. -/
def sampleEnvUnmanaged : SyncEnv :=
  { sampleEnv with
    getOperatorState :=
      Except.ok ({ managementState := ManagementState.Unmanaged, logLevel := "Normal" }, ⟨[]⟩) }

/-- The environment fixture whose webhook-configuration apply always fails. -/
def sampleEnvHookFail : SyncEnv :=
  { sampleEnv with applyWebhook := fun _ _ => Except.error (ApiError.other "boom") }

/-- The desired deployment `sync` submits under `sampleEnv` (two qualifying
nodes, hence two replicas). -/
def sampleDesired : Deployment :=
  { sampleDeployment with specReplicas := some 2 }

/-- The webhook configuration `sync` submits under `sampleEnv`: the template
with the rule-set digest stamped on. -/
def sampleStamped : WebhookConfig :=
  { sampleWebhookTemplate with annotations := [(specHashKey, ⟨["rule-v1"]⟩)] }

/-! Theorems.  One theorem per spec claim, each stated over the embedded
definitions above. -/

/-- C1: the replica count written into the desired deployment before apply
is exactly 1 when the qualifying-node count is 0 or 1 and exactly 2 when it
is 2 or more, never any other value; and every deployment `sync` submits to
the applier carries `replicaCount` of the node list the lister returned for
the rendered deployment's node selector. -/
theorem replica_sizing (nodes : List Node) (c : Controller) (env : SyncEnv)
    (d : Deployment) (lg : Int) :
    (nodes.length ≤ 1 → replicaCount nodes = 1) ∧
    (2 ≤ nodes.length → replicaCount nodes = 2) ∧
    (replicaCount nodes = 1 ∨ replicaCount nodes = 2) ∧
    (SyncEffect.applyDeployment d lg ∈ (sync c env).effects →
      ∃ sel ns, env.listNodes sel = Except.ok ns ∧
        d.specReplicas = some (replicaCount ns)) := by
  refine ⟨?_, ?_, ?_, ?_⟩
  · intro hlen
    unfold replicaCount
    split <;> omega
  · intro hlen
    unfold replicaCount
    split <;> omega
  · unfold replicaCount
    split <;> simp
  · intro h
    unfold sync at h
    repeat' first
      | split at h
      | simp_all
    all_goals refine ⟨_, _, by assumption, ?_⟩
    all_goals simp_all

/-- C1 witness: under `sampleEnv` (two qualifying nodes) the applied
deployment carries two replicas, witnessed through the theorem. -/
theorem replica_sizing_witness :
    replicaCount [] = 1 ∧
    replicaCount [⟨[("a", "1")]⟩] = 1 ∧
    replicaCount [⟨[("a", "1")]⟩, ⟨[("b", "2")]⟩] = 2 ∧
    replicaCount [⟨[("a", "1")]⟩, ⟨[("b", "2")]⟩, ⟨[("c", "3")]⟩] = 2 ∧
    SyncEffect.applyDeployment sampleDesired (-1) ∈
      (sync (newCSISnapshotWebhookController "X") sampleEnv).effects ∧
    (∃ sel ns, sampleEnv.listNodes sel = Except.ok ns ∧
      sampleDesired.specReplicas = some (replicaCount ns)) :=
  ⟨(replica_sizing [] (newCSISnapshotWebhookController "X") sampleEnv
      sampleDesired (-1)).1 (by decide),
   (replica_sizing [⟨[("a", "1")]⟩] (newCSISnapshotWebhookController "X") sampleEnv
      sampleDesired (-1)).1 (by decide),
   (replica_sizing [⟨[("a", "1")]⟩, ⟨[("b", "2")]⟩]
      (newCSISnapshotWebhookController "X") sampleEnv
      sampleDesired (-1)).2.1 (by decide),
   (replica_sizing [⟨[("a", "1")]⟩, ⟨[("b", "2")]⟩, ⟨[("c", "3")]⟩]
      (newCSISnapshotWebhookController "X") sampleEnv
      sampleDesired (-1)).2.1 (by decide),
   by decide,
   (replica_sizing [] (newCSISnapshotWebhookController "X") sampleEnv
      sampleDesired (-1)).2.2.2 (by decide)⟩

/-- C5: a missing operator configuration or a management state other than
Managed makes `sync` a quiet no-op: no remote calls at all and no error. -/
theorem sync_noop (c : Controller) (env : SyncEnv) :
    (env.getOperatorState = Except.error ApiError.notFound →
      sync c env = { effects := [], error := none }) ∧
    (∀ opSpec opStatus,
      env.getOperatorState = Except.ok (opSpec, opStatus) →
      opSpec.managementState ≠ ManagementState.Managed →
      sync c env = { effects := [], error := none }) := by
  constructor
  · intro h
    unfold sync
    rw [h]
    simp
  · intro opSpec opStatus h hstate
    unfold sync
    rw [h]
    simp [hstate]

/-- C5 witness: the absent and unmanaged environment fixtures both produce
the empty outcome, through the theorem. -/
theorem sync_noop_witness :
    sync (newCSISnapshotWebhookController "X") sampleEnvAbsent =
      { effects := [], error := none } ∧
    sync (newCSISnapshotWebhookController "X") sampleEnvUnmanaged =
      { effects := [], error := none } :=
  ⟨(sync_noop (newCSISnapshotWebhookController "X") sampleEnvAbsent).1 rfl,
   (sync_noop (newCSISnapshotWebhookController "X") sampleEnvUnmanaged).2
     { managementState := ManagementState.Unmanaged, logLevel := "Normal" } ⟨[]⟩
     rfl (by decide)⟩

/-- C2: the Progressing condition is True with a message reporting both
generation values whenever the observed generation differs from the
generation; otherwise, with a desired replica count present, it is False
when the updated replica count equals it and True with an
"updated out of desired" message when it does not. -/
theorem progressing_condition (d : Deployment) (r : Int) :
    (d.status.observedGeneration ≠ d.generation →
      computeProgressing d =
        { type := WebhookControllerName ++ OperatorStatusTypeProgressing
          status := ConditionTrue
          reason := "Deploying"
          message := "desired generation " ++ toString d.generation ++ ", current generation " ++ toString d.status.observedGeneration }) ∧
    (d.status.observedGeneration = d.generation → d.specReplicas = some r →
      ((d.status.updatedReplicas = r →
        computeProgressing d =
          { type := WebhookControllerName ++ OperatorStatusTypeProgressing
            status := ConditionFalse }) ∧
       (d.status.updatedReplicas ≠ r →
        computeProgressing d =
          { type := WebhookControllerName ++ OperatorStatusTypeProgressing
            status := ConditionTrue
            reason := "Deploying"
            message := toString d.status.updatedReplicas ++ " out of " ++ toString r ++ " pods running" }))) := by
  unfold computeProgressing
  constructor
  · intro h
    simp [h]
  · intro hgen hrep
    constructor <;> intro hupd <;> simp [hgen, hrep, hupd]

/-- C2 witness: generation skew 5/6 reports both generations; converged
generations with 1 of 2 updated replicas report "1 out of 2 pods running". -/
theorem progressing_condition_witness :
    ((5 : Int) ≠ (6 : Int) ∧
     computeProgressing { sampleDeployment with
        generation := 6, status := { sampleDeployment.status with observedGeneration := 5 } } =
       { type := "CSISnapshotWebhookControllerProgressing"
         status := "True"
         reason := "Deploying"
         message := "desired generation 6, current generation 5" }) ∧
    ((1 : Int) ≠ (2 : Int) ∧
     computeProgressing { sampleDeployment with
        specReplicas := some 2
        status := { observedGeneration := 3, availableReplicas := 1, updatedReplicas := 1 } } =
       { type := "CSISnapshotWebhookControllerProgressing"
         status := "True"
         reason := "Deploying"
         message := "1 out of 2 pods running" }) :=
  ⟨⟨by decide,
    (progressing_condition { sampleDeployment with
        generation := 6, status := { sampleDeployment.status with observedGeneration := 5 } }
      0).1 (by decide)⟩,
   ⟨by decide,
    ((progressing_condition { sampleDeployment with
        specReplicas := some 2
        status := { observedGeneration := 3, availableReplicas := 1, updatedReplicas := 1 } }
      2).2 (by decide) (by decide)).2 (by decide)⟩⟩

/-- C3: the Available condition is True exactly when the live deployment has
at least one available replica; with none available it is False with reason
"Deploying" and the explanatory message; a single available replica yields
True regardless of the desired replica count. -/
theorem available_condition (d : Deployment) :
    ((computeAvailable d).status = ConditionTrue ↔ 0 < d.status.availableReplicas) ∧
    (¬ 0 < d.status.availableReplicas →
      computeAvailable d =
        { type := WebhookControllerName ++ OperatorStatusTypeAvailable
          status := ConditionFalse
          reason := "Deploying"
          message := "Waiting for a validating webhook Deployment pod to start" }) ∧
    (d.status.availableReplicas = 1 → (computeAvailable d).status = ConditionTrue) := by
  unfold computeAvailable
  refine ⟨?_, ?_, ?_⟩
  · split <;> simp_all [ConditionTrue, ConditionFalse]
  · intro h
    simp [h]
  · intro h
    simp [h]

/-- C3 witness: one available replica with two desired yields Available=True;
zero available replicas yield the False/Deploying condition, through the
theorem. -/
theorem available_condition_witness :
    ((0 : Int) < 1 ∧ (computeAvailable sampleDesired).status = ConditionTrue) ∧
    (¬ (0 : Int) < 0 ∧
     computeAvailable { sampleDesired with
        status := { sampleDesired.status with availableReplicas := 0 } } =
       { type := "CSISnapshotWebhookControllerAvailable"
         status := "False"
         reason := "Deploying"
         message := "Waiting for a validating webhook Deployment pod to start" }) :=
  ⟨⟨by decide, (available_condition sampleDesired).1.mpr (by decide)⟩,
   ⟨by decide,
    (available_condition { sampleDesired with
        status := { sampleDesired.status with availableReplicas := 0 } }).2.1 (by decide)⟩⟩

/-- C9: with converged generations but a nil desired-replica pointer, the
Progressing condition keeps all zero values besides its type: empty status
(neither True nor False), no reason and no message. -/
theorem progressing_nil_replicas (d : Deployment)
    (hgen : d.status.observedGeneration = d.generation)
    (hnil : d.specReplicas = none) :
    computeProgressing d =
      { type := WebhookControllerName ++ OperatorStatusTypeProgressing
        status := ""
        reason := ""
        message := "" } ∧
    (computeProgressing d).status ≠ ConditionTrue ∧
    (computeProgressing d).status ≠ ConditionFalse := by
  unfold computeProgressing
  simp [hgen, hnil, ConditionTrue, ConditionFalse]
  exact ⟨by decide, by decide⟩

/-- C9 witness: the sample template (nil replicas, converged generations)
yields the all-empty Progressing condition, through the theorem. -/
theorem progressing_nil_replicas_witness :
    computeProgressing sampleDeployment =
      { type := WebhookControllerName ++ OperatorStatusTypeProgressing
        status := ""
        reason := ""
        message := "" } ∧
    (computeProgressing sampleDeployment).status ≠ ConditionTrue ∧
    (computeProgressing sampleDeployment).status ≠ ConditionFalse :=
  progressing_nil_replicas sampleDeployment (by decide) (by decide)

/-- C4: rendering the workload deployment fails exactly when the requested
log level is not recognized; for a recognized level it decodes the template
with the configured image substituted for every `${WEBHOOK_IMAGE}`
occurrence and the mapped verbosity for every `${LOG_LEVEL}` occurrence. -/
theorem getDeployment_spec (decode : String → Deployment)
    (asset image logLevel : String) :
    ((∃ d, getDeployment decode asset image logLevel = Except.ok d) ↔
      ValidLogLevel logLevel = true) ∧
    (ValidLogLevel logLevel = true →
      getDeployment decode asset image logLevel =
        Except.ok (decode (replaceAll (replaceAll asset imagePlaceholder image)
          logLevelPlaceholder (toString (LogLevelToVerbosity logLevel))))) ∧
    (ValidLogLevel logLevel = false →
      getDeployment decode asset image logLevel =
        Except.error ("logLevel \"" ++ logLevel ++ "\" is not a valid log level")) := by
  unfold getDeployment
  refine ⟨?_, ?_, ?_⟩
  · constructor
    · intro ⟨d, hd⟩
      by_contra hv
      simp [Bool.not_eq_true] at hv
      simp [hv] at hd
    · intro hv
      exact ⟨decode (replaceAll (replaceAll asset imagePlaceholder image)
          logLevelPlaceholder (toString (LogLevelToVerbosity logLevel))),
        by simp [hv]⟩
  · intro hv
    simp [hv]
  · intro hv
    simp [hv]

/-- C4 witness: with log level Normal the image "X" lands verbatim at both
`${WEBHOOK_IMAGE}` occurrences and verbosity 2 at the `${LOG_LEVEL}`
occurrence; the unrecognized level "Verbose" fails, both through the
theorem. -/
theorem getDeployment_spec_witness :
    ValidLogLevel "Normal" = true ∧
    getDeployment sampleDecode
        "a: $\x7bWEBHOOK_IMAGE\x7d b: $\x7bWEBHOOK_IMAGE\x7d v: $\x7bLOG_LEVEL\x7d"
        "X" "Normal" =
      Except.ok { sampleDeployment with name := "a: X b: X v: 2" } ∧
    ValidLogLevel "Verbose" = false ∧
    getDeployment sampleDecode "t" "X" "Verbose" =
      Except.error "logLevel \"Verbose\" is not a valid log level" :=
  ⟨by decide,
   (getDeployment_spec sampleDecode
      "a: $\x7bWEBHOOK_IMAGE\x7d b: $\x7bWEBHOOK_IMAGE\x7d v: $\x7bLOG_LEVEL\x7d"
      "X" "Normal").2.1 (by decide),
   by decide,
   (getDeployment_spec sampleDecode "t" "X" "Verbose").2.2 (by decide)⟩

/-- Lookup of an annotation value by key. -/
def annotationValue (annos : List (String × SpecDigest)) (key : String) :
    Option SpecDigest :=
  (annos.find? (fun kv => kv.1 = key)).map Prod.snd

/-- C7: rendering the admission-hook registration propagates decode errors,
performs no substitution (name and rule set pass through unchanged), and
stamps the content digest of the rule set as the spec-hash annotation, so
two templates with different rule sets always get different annotation
values. -/
theorem getWebhookConfig_spec (t1 t2 : WebhookConfig) (e : String) :
    (getWebhookConfig (Except.error e) = Except.error e) ∧
    (∃ w, getWebhookConfig (Except.ok t1) = Except.ok w ∧
      w.name = t1.name ∧ w.webhooks = t1.webhooks ∧ w.generation = t1.generation ∧
      annotationValue w.annotations specHashKey = some ⟨t1.webhooks⟩) ∧
    (t1.webhooks ≠ t2.webhooks →
      ∀ w1 w2, getWebhookConfig (Except.ok t1) = Except.ok w1 →
        getWebhookConfig (Except.ok t2) = Except.ok w2 →
        annotationValue w1.annotations specHashKey ≠
          annotationValue w2.annotations specHashKey) := by
  refine ⟨rfl, ⟨_, rfl, rfl, rfl, rfl, ?_⟩, ?_⟩
  · simp [annotationValue, setSpecHash]
  · intro hne w1 w2 h1 h2
    simp only [getWebhookConfig, Except.ok.injEq] at h1 h2
    subst h1
    subst h2
    simp [annotationValue, setSpecHash, hne]

/-- C7 witness: the sample admission-hook template gets its rule set stamped
as the digest annotation, and a template with a changed rule set gets a
different annotation value, through the theorem. -/
theorem getWebhookConfig_spec_witness :
    (∃ w, getWebhookConfig (Except.ok sampleWebhookTemplate) = Except.ok w ∧
      w.name = sampleWebhookTemplate.name ∧
      w.webhooks = sampleWebhookTemplate.webhooks ∧
      w.generation = sampleWebhookTemplate.generation ∧
      annotationValue w.annotations specHashKey = some ⟨sampleWebhookTemplate.webhooks⟩) ∧
    (sampleWebhookTemplate.webhooks ≠ ["rule-v2"] ∧
     annotationValue sampleStamped.annotations specHashKey ≠
       annotationValue ({ sampleWebhookTemplate with
          webhooks := ["rule-v2"]
          annotations := [(specHashKey, ⟨["rule-v2"]⟩)] } : WebhookConfig).annotations
         specHashKey) :=
  ⟨(getWebhookConfig_spec sampleWebhookTemplate sampleWebhookTemplate "e").2.1,
   by decide,
   (getWebhookConfig_spec sampleWebhookTemplate
      { sampleWebhookTemplate with webhooks := ["rule-v2"] } "e").2.2
     (by decide) sampleStamped _ (by decide) (by decide)⟩

/-- Recognizer for the work-queue effect. -/
def isEnqueue : SyncEffect → Bool
  | SyncEffect.enqueue _ => true
  | _ => false

/-- C8: the controller's work queue is initialized empty at construction and
no `sync` pass ever enqueues to it: the trace of any pass contains no
enqueue effect. -/
theorem queue_never_used (image : String) (c : Controller) (env : SyncEnv) :
    (newCSISnapshotWebhookController image).queue = [] ∧
    (sync c env).effects.filter isEnqueue = [] := by
  constructor
  · rfl
  · unfold sync
    repeat' first
      | split
      | simp_all [isEnqueue]

/-- The type of every Available condition this controller computes is the
controller name concatenated with "Available". -/
theorem computeAvailable_type (d : Deployment) :
    (computeAvailable d).type =
      WebhookControllerName ++ OperatorStatusTypeAvailable := by
  unfold computeAvailable
  split <;> rfl

/-- The type of every Progressing condition this controller computes is the
controller name concatenated with "Progressing". -/
theorem computeProgressing_type (d : Deployment) :
    (computeProgressing d).type =
      WebhookControllerName ++ OperatorStatusTypeProgressing := by
  unfold computeProgressing
  repeat' first
    | rfl
    | split

/-- C10: every condition pair `sync` writes is namespaced with the
controller's name: "CSISnapshotWebhookController" ++ "Available" and
"CSISnapshotWebhookController" ++ "Progressing", never the bare names. -/
theorem condition_types_namespaced (c : Controller) (env : SyncEnv)
    (a p : OperatorCondition) (dg wg : Int)
    (h : SyncEffect.updateStatus a p dg wg ∈ (sync c env).effects) :
    a.type = WebhookControllerName ++ OperatorStatusTypeAvailable ∧
    p.type = WebhookControllerName ++ OperatorStatusTypeProgressing ∧
    a.type ≠ OperatorStatusTypeAvailable ∧
    p.type ≠ OperatorStatusTypeProgressing := by
  have key : ∀ d : Deployment,
      (computeAvailable d).type = WebhookControllerName ++ OperatorStatusTypeAvailable ∧
      (computeProgressing d).type = WebhookControllerName ++ OperatorStatusTypeProgressing := by
    intro d
    constructor
    · unfold computeAvailable
      split <;> rfl
    · unfold computeProgressing
      repeat' first
        | rfl
        | split
  unfold sync at h
  repeat' first
    | split at h
    | simp_all
  all_goals decide

/-- C10 witness: the all-success fixture writes exactly the two namespaced
condition types, through the theorem. -/
theorem condition_types_namespaced_witness :
    SyncEffect.updateStatus (computeAvailable sampleDesired)
        (computeProgressing sampleDesired) 3 7 ∈
      (sync (newCSISnapshotWebhookController "X") sampleEnv).effects ∧
    ((computeAvailable sampleDesired).type =
        WebhookControllerName ++ OperatorStatusTypeAvailable ∧
      (computeProgressing sampleDesired).type =
        WebhookControllerName ++ OperatorStatusTypeProgressing ∧
      (computeAvailable sampleDesired).type ≠ OperatorStatusTypeAvailable ∧
      (computeProgressing sampleDesired).type ≠ OperatorStatusTypeProgressing) :=
  ⟨by decide,
   condition_types_namespaced (newCSISnapshotWebhookController "X") sampleEnv
     (computeAvailable sampleDesired) (computeProgressing sampleDesired) 3 7
     (by decide)⟩

/-- C6: a status write appears in a sync trace only as the single final call
after both applies succeeded, and whenever the hook apply was attempted and
failed, the pass returns the hook's error and performs no status write, so
the generation record of the already-applied workload is not persisted. -/
theorem hook_failure_atomic (c : Controller) (env : SyncEnv) :
    (∀ a p dg wg, SyncEffect.updateStatus a p dg wg ∈ (sync c env).effects →
      ∃ d lg ld w lw lh,
        (sync c env).effects =
          [SyncEffect.applyDeployment d lg, SyncEffect.applyWebhook w lw,
           SyncEffect.updateStatus a p dg wg] ∧
        env.applyDeployment d lg = Except.ok ld ∧
        env.applyWebhook w lw = Except.ok lh) ∧
    (∀ e w lw, SyncEffect.applyWebhook w lw ∈ (sync c env).effects →
      env.applyWebhook w lw = Except.error e →
      (sync c env).error = some e ∧
      ∀ a p dg wg, SyncEffect.updateStatus a p dg wg ∉ (sync c env).effects) := by
  constructor
  · intro a p dg wg h
    unfold sync at h
    repeat' first
      | split at h
      | simp_all
    all_goals
      obtain ⟨ha, hp, hdg, hwg⟩ := h
      subst ha
      subst hp
      subst hdg
      subst hwg
      unfold sync
      simp_all
    all_goals
      refine ⟨_, _, _, _, _, ⟨⟨rfl, rfl⟩, rfl, rfl⟩, by assumption, _, by assumption⟩
  · intro e w lw h herr
    unfold sync at h
    repeat' first
      | split at h
      | simp_all
    all_goals
      obtain ⟨hw, hlw⟩ := h
      subst hw
      subst hlw
      unfold sync
      simp_all

/-- C6 witness: under the fixture whose hook apply fails, the trace holds
the workload and hook applies but no status write, and the pass returns the
hook's error, through the theorem. -/
theorem hook_failure_atomic_witness :
    SyncEffect.applyWebhook sampleStamped (-1) ∈
      (sync (newCSISnapshotWebhookController "X") sampleEnvHookFail).effects ∧
    sampleEnvHookFail.applyWebhook sampleStamped (-1) =
      Except.error (ApiError.other "boom") ∧
    (sync (newCSISnapshotWebhookController "X") sampleEnvHookFail).error =
      some (ApiError.other "boom") ∧
    ∀ a p dg wg, SyncEffect.updateStatus a p dg wg ∉
      (sync (newCSISnapshotWebhookController "X") sampleEnvHookFail).effects := by
  have h := (hook_failure_atomic (newCSISnapshotWebhookController "X")
    sampleEnvHookFail).2 (ApiError.other "boom") sampleStamped (-1)
    (by decide) rfl
  exact ⟨by decide, rfl, h.1, h.2⟩

end WebhookCtl
